import Mathlib

/-! pylnk: the signature-check entry points of the Python binding of liblnk

A shallow embedding of `pylnk/pylnk.c`:

* `Narrow.pylnk_check_file_signature` : the build without
  `LIBCSTRING_HAVE_WIDE_SYSTEM_CHARACTER` (source lines 321-369),
* `Wide.pylnk_check_file_signature` : the build with it (lines 129-314), and
  `Wide.invoke` for the call of that build with the argument left out,
* `pylnk_check_file_signature_file_object` (lines 376-465).

Each function is a pure function from the results of the external calls it
makes (`Env`) to the value it returns and the sequence of external calls it
performed, in program order (`Outcome`).  The C `int` results are `Int`s and the
branches compare them exactly as the source does (`== 0`, `== -1`, `!= 1`).
-/

namespace Pylnk

/-- A libbfio handle, as stored in the local variable `file_io_handle`
(`none` is the `NULL` pointer). -/
abbrev Handle := Nat

/-- The exception types the binding passes to `PyErr_Format` and
`pylnk_error_raise`; `by_interpreter` stands for an exception that the Python
runtime has set by itself (a failed argument parse or a failed type probe). -/
inductive PyExc where
  | PyExc_IOError
  | PyExc_MemoryError
  | PyExc_TypeError
  | PyExc_RuntimeError
  | by_interpreter
  deriving DecidableEq, Repr

/-- The two type objects used by the type probes of the wide build. -/
inductive PyType where
  | PyUnicode_Type
  | PyString_Type
  deriving DecidableEq, Repr

/-- What a binding function hands back to the interpreter. -/
inductive PyObject where
  | Py_True
  | Py_False
  | NULL
  deriving DecidableEq, Repr

/-- The external calls (and the two lock macros) that occur in the three
functions, with the arguments and results that matter for control flow. -/
inductive Event where
  | PyArg_ParseTupleAndKeywords (rc : Int)
  | PyErr_Clear
  | PyObject_IsInstance (cls : PyType) (rc : Int)
  | PyErr_Fetch
  | PyObject_Repr
  | PyString_AsString
  | PyUnicode_AsUnicode
  | PyErr_Format (exc : PyExc) (with_error_string : Bool)
  | Py_DecRef
  | Py_BEGIN_ALLOW_THREADS
  | Py_END_ALLOW_THREADS
  | liblnk_check_file_signature (rc : Int)
  | liblnk_check_file_signature_wide (rc : Int)
  | liblnk_check_file_signature_file_io_handle (h : Option Handle) (rc : Int)
  | pylnk_file_object_initialize (rc : Int) (h : Option Handle)
  | libbfio_handle_free (h : Option Handle) (rc : Int)
  | pylnk_error_raise (exc : PyExc)
  | libcerror_error_free
  deriving DecidableEq, Repr

/-- The results of the external calls of one invocation.  None of the called
functions is defined in `pylnk.c`; their results are parameters. -/
structure Env where
  /-- Result of `PyArg_ParseTupleAndKeywords` with format `"|s"` (narrow build). -/
  parse_s : Int
  /-- Result of `PyArg_ParseTupleAndKeywords` with format `"|O"`
  (wide build and the file-object variant). -/
  parse_O : Int
  /-- Result of `PyObject_IsInstance( string_object, &PyUnicode_Type )`. -/
  is_unicode : Int
  /-- Result of `PyObject_IsInstance( string_object, &PyString_Type )`. -/
  is_string : Int
  /-- Whether `PyString_AsString( exception_string )` gave a non-`NULL` string. -/
  has_error_string : Bool
  /-- Result of `liblnk_check_file_signature` on the parsed path. -/
  check_narrow : Int
  /-- Result of `liblnk_check_file_signature_wide` on the parsed path. -/
  check_wide : Int
  /-- Result of `pylnk_file_object_initialize( &file_io_handle, .. )` and the
  value it leaves in `file_io_handle`. -/
  file_object_init : Int × Option Handle
  /-- Result of `liblnk_check_file_signature_file_io_handle` on a handle. -/
  check_file_io_handle : Option Handle → Int
  /-- Result of `libbfio_handle_free( &file_io_handle, .. )` on a handle and the
  value it leaves in `file_io_handle`. -/
  handle_free : Option Handle → Int × Option Handle

/-- The returned object together with the calls made, in program order. -/
structure Outcome where
  value : PyObject
  trace : List Event
  deriving DecidableEq, Repr

/-! ## Observers on traces -/

/-- Modelled from the spec: `pylnk_error_raise` (pylnk_error.c, not part of
pylnk.c) is the error reporter of section 4.4/7, which surfaces a failure as
one error of the kind it is handed; here it sets the error indicator to the
exception type passed as its second argument, like `PyErr_Format` does. -/
def errorIndicatorStep (pending : Option PyExc) : Event → Option PyExc
  | .PyArg_ParseTupleAndKeywords rc => if rc = 0 then some .by_interpreter else pending
  | .PyObject_IsInstance _ rc => if rc = -1 then some .by_interpreter else pending
  | .PyErr_Clear => none
  | .PyErr_Fetch => none
  | .PyErr_Format exc _ => some exc
  | .pylnk_error_raise exc => some exc
  | _ => pending

/-- The error indicator of the interpreter after a sequence of calls that
started with no exception pending. -/
def pendingException (t : List Event) : Option PyExc :=
  t.foldl errorIndicatorStep none

/-- The exception kinds the binding itself raised during a trace. -/
def raisedKinds : List Event → List PyExc
  | [] => []
  | .PyErr_Format exc _ :: t => exc :: raisedKinds t
  | .pylnk_error_raise exc :: t => exc :: raisedKinds t
  | _ :: t => raisedKinds t

/-- The call fails with exception `exc`: `NULL` is returned with `exc` pending. -/
def Outcome.failsWith (o : Outcome) (exc : PyExc) : Prop :=
  o.value = .NULL ∧ pendingException o.trace = some exc

/-- The call returns the Python boolean `b` with no exception pending. -/
def Outcome.returnsBool (o : Outcome) (b : Bool) : Prop :=
  o.value = (if b then .Py_True else .Py_False) ∧ pendingException o.trace = none

instance (o : Outcome) (exc : PyExc) : Decidable (o.failsWith exc) :=
  inferInstanceAs (Decidable (_ ∧ _))

instance (o : Outcome) (b : Bool) : Decidable (o.returnsBool b) :=
  inferInstanceAs (Decidable (_ ∧ _))

/-- Number of calls of `liblnk_check_file_signature` in a trace. -/
def narrowChecks (t : List Event) : Nat :=
  t.countP fun e => match e with
    | .liblnk_check_file_signature _ => true
    | _ => false

/-- Number of calls of `liblnk_check_file_signature_wide` in a trace. -/
def wideChecks (t : List Event) : Nat :=
  t.countP fun e => match e with
    | .liblnk_check_file_signature_wide _ => true
    | _ => false

/-- Number of calls of `liblnk_check_file_signature_file_io_handle` in a trace. -/
def fileIoHandleChecks (t : List Event) : Nat :=
  t.countP fun e => match e with
    | .liblnk_check_file_signature_file_io_handle _ _ => true
    | _ => false

/-- Whether an event is one of the blocking library checks. -/
def Event.isLibraryCheck : Event → Bool
  | .liblnk_check_file_signature _ => true
  | .liblnk_check_file_signature_wide _ => true
  | .liblnk_check_file_signature_file_io_handle _ _ => true
  | _ => false

/-- One step of the interpreter-lock discipline.  `held` says whether the thread
holds the lock before the event; the result is the lock state after it, or
`none` when the event happens in the wrong state: `Py_BEGIN_ALLOW_THREADS`
releases a held lock, `Py_END_ALLOW_THREADS` takes a released one back, a
library check needs the lock released, and every other call (the Python API,
`pylnk_error_raise`, handle construction and release) needs it held. -/
def lockStep (held : Bool) (e : Event) : Option Bool :=
  match e with
  | .Py_BEGIN_ALLOW_THREADS => if held then some false else none
  | .Py_END_ALLOW_THREADS => if held then none else some true
  | _ => if e.isLibraryCheck then (if held then none else some held)
         else (if held then some held else none)

/-- Runs the lock discipline over a trace. -/
def lockRun : Bool → List Event → Option Bool
  | held, [] => some held
  | held, e :: t =>
    match lockStep held e with
    | some held' => lockRun held' t
    | none => none

/-! ## The narrow build (lines 321-369) -/

namespace Narrow

/-- Embedding of `pylnk_check_file_signature`, lines 321-369. -/
def pylnk_check_file_signature (env : Env) : Outcome :=
  if env.parse_s = 0 then
    ⟨.NULL, [.PyArg_ParseTupleAndKeywords env.parse_s]⟩
  else
    let result := env.check_narrow
    let t := [.PyArg_ParseTupleAndKeywords env.parse_s,
              .Py_BEGIN_ALLOW_THREADS,
              .liblnk_check_file_signature result,
              .Py_END_ALLOW_THREADS]
    if result = -1 then
      ⟨.NULL, t ++ [.pylnk_error_raise .PyExc_IOError, .libcerror_error_free]⟩
    else if result ≠ 0 then
      ⟨.Py_True, t⟩
    else
      ⟨.Py_False, t⟩

end Narrow

/-! ## The wide build (lines 129-314) -/

namespace Wide

/-- The common tail of the two path branches, lines 208-233 and 281-306: the
library check in a lock-free bracket, then the three-way test on its result.
`t` is the trace so far and `check` the event of the library call made. -/
def checked (t : List Event) (check : Int → Event) (result : Int) : Outcome :=
  let t := t ++ [.Py_BEGIN_ALLOW_THREADS, check result, .Py_END_ALLOW_THREADS]
  if result = -1 then
    ⟨.NULL, t ++ [.pylnk_error_raise .PyExc_IOError, .libcerror_error_free]⟩
  else if result ≠ 0 then
    ⟨.Py_True, t⟩
  else
    ⟨.Py_False, t⟩

/-- The failed-probe branches, lines 169-201 and 241-273: the pending exception
is fetched and rendered, and a `RuntimeError` is raised in its place. -/
def probe_failed (env : Env) (t : List Event) : Outcome :=
  ⟨.NULL, t ++ [.PyErr_Fetch, .PyObject_Repr, .PyString_AsString,
                .PyErr_Format .PyExc_RuntimeError env.has_error_string,
                .Py_DecRef]⟩

/-- Embedding of `pylnk_check_file_signature`, lines 129-314, for the calls in
which the parser fails or stores an object in `string_object`.  The call in
which it succeeds and leaves `string_object` at `NULL` is in `Wide.invoke`. -/
def pylnk_check_file_signature (env : Env) : Outcome :=
  if env.parse_O = 0 then
    ⟨.NULL, [.PyArg_ParseTupleAndKeywords env.parse_O]⟩
  else
    let t := [.PyArg_ParseTupleAndKeywords env.parse_O, .PyErr_Clear,
              .PyObject_IsInstance .PyUnicode_Type env.is_unicode]
    if env.is_unicode = -1 then
      probe_failed env t
    else if env.is_unicode ≠ 0 then
      checked (t ++ [.PyErr_Clear, .PyUnicode_AsUnicode])
        .liblnk_check_file_signature_wide env.check_wide
    else
      let t := t ++ [.PyErr_Clear, .PyObject_IsInstance .PyString_Type env.is_string]
      if env.is_string = -1 then
        probe_failed env t
      else if env.is_string ≠ 0 then
        checked (t ++ [.PyErr_Clear, .PyString_AsString])
          .liblnk_check_file_signature env.check_narrow
      else
        ⟨.NULL, t ++ [.PyErr_Format .PyExc_TypeError false]⟩

end Wide

/-- The course of one call: it returns an outcome, or it stops in a `NULL`
dereference after the calls of `t` have been made. -/
inductive Run where
  | returned (o : Outcome)
  | crashed (t : List Event)
  deriving DecidableEq, Repr

/-- The outcome a run hands back to the interpreter, if it returns at all. -/
def Run.result : Run → Option Outcome
  | .returned o => some o
  | .crashed _ => none

/-- Embedding of the wide build's `pylnk_check_file_signature` together with
what the parser leaves in `string_object`.  The format `"|O"` (line 157) makes
the argument optional, so a call without argument parses with a non-zero result
and leaves `string_object` at its initial `NULL` (line 138).  Line 165 hands it
to `PyObject_IsInstance` with no test, and that function reads the type of its
first argument: the call stops there, after the parse and `PyErr_Clear`. -/
def Wide.invoke (argument_supplied : Bool) (env : Env) : Run :=
  if env.parse_O = 0 then
    .returned (Wide.pylnk_check_file_signature env)
  else if argument_supplied then
    .returned (Wide.pylnk_check_file_signature env)
  else
    .crashed [.PyArg_ParseTupleAndKeywords env.parse_O, .PyErr_Clear]

/-! ## The file-object variant (lines 376-465) -/

/-- The `on_error` label, lines 457-464: a non-`NULL` `file_io_handle` is freed
(the result of that call is ignored), then `NULL` is returned. -/
def on_error (env : Env) (file_io_handle : Option Handle) (t : List Event) : Outcome :=
  match file_io_handle with
  | some h => ⟨.NULL, t ++ [.libbfio_handle_free (some h) (env.handle_free (some h)).1]⟩
  | none => ⟨.NULL, t⟩

/-- Embedding of `pylnk_check_file_signature_file_object`, lines 376-465. -/
def pylnk_check_file_signature_file_object (env : Env) : Outcome :=
  if env.parse_O = 0 then
    ⟨.NULL, [.PyArg_ParseTupleAndKeywords env.parse_O]⟩
  else
    let init := env.file_object_init
    let file_io_handle := init.2
    let t := [.PyArg_ParseTupleAndKeywords env.parse_O,
              Event.pylnk_file_object_initialize init.1 file_io_handle]
    if init.1 ≠ 1 then
      on_error env file_io_handle
        (t ++ [.pylnk_error_raise .PyExc_MemoryError, .libcerror_error_free])
    else
      let result := env.check_file_io_handle file_io_handle
      let t := t ++ [.Py_BEGIN_ALLOW_THREADS,
                     .liblnk_check_file_signature_file_io_handle file_io_handle result,
                     .Py_END_ALLOW_THREADS]
      if result = -1 then
        on_error env file_io_handle
          (t ++ [.pylnk_error_raise .PyExc_IOError, .libcerror_error_free])
      else
        let freed := env.handle_free file_io_handle
        let t := t ++ [.libbfio_handle_free file_io_handle freed.1]
        if freed.1 ≠ 1 then
          on_error env freed.2
            (t ++ [.pylnk_error_raise .PyExc_MemoryError, .libcerror_error_free])
        else if result ≠ 0 then
          ⟨.Py_True, t⟩
        else
          ⟨.Py_False, t⟩

/-! ## The library check, from the specification -/

/-- A resource as the signature checker sees it: its total size when that is
cheaply available, and the bytes a read from offset 0 delivers. -/
structure Resource where
  size : Option Nat
  content : List Nat
  deriving DecidableEq, Repr

/-- Modelled from the spec: the library checks `liblnk_check_file_signature`,
`liblnk_check_file_signature_wide` and
`liblnk_check_file_signature_file_io_handle` (liblnk, not part of pylnk.c),
after the algorithm of section 4.3.  A resource that cannot be opened or read
at all (`none`) gives -1.  Otherwise: a known size below the header length
gives 0; the read of header-length bytes from offset 0 gives 0 when it comes
back short; the bytes read are compared with the magic constant by exact
equality, 1 on a match and 0 otherwise. -/
def signature_check (header_length : Nat) (magic : List Nat) : Option Resource → Int
  | none => -1
  | some r =>
    match r.size with
    | some n =>
      if n < header_length then 0
      else
        let bytes := r.content.take header_length
        if bytes.length < header_length then 0
        else if bytes = magic then 1 else 0
    | none =>
      let bytes := r.content.take header_length
      if bytes.length < header_length then 0
      else if bytes = magic then 1 else 0

/-! ## Sample environments -/

/-- An environment in which every call succeeds and the signature matches. -/
def sampleEnv : Env where
  parse_s := 1
  parse_O := 1
  is_unicode := 0
  is_string := 1
  has_error_string := true
  check_narrow := 1
  check_wide := 1
  file_object_init := (1, some 7)
  check_file_io_handle := fun _ => 1
  handle_free := fun _ => (1, none)

/-- An environment whose argument is a Unicode instance. -/
def sampleUnicodeEnv : Env :=
  { sampleEnv with is_unicode := 1, is_string := 0 }

/-- An environment in which adapter construction fails and leaves
`file_io_handle` at `NULL`. -/
def initFailsEnv : Env :=
  { sampleEnv with file_object_init := (-1, none) }

/-- An environment in which the library check succeeds with 1 and the release of
the handle then fails. -/
def freeFailsEnv : Env :=
  { sampleEnv with handle_free := fun _ => (-1, none) }

/-- An environment in which the adapter is constructed and the library check
then reports a read failure. -/
def checkFailsEnv : Env :=
  { sampleEnv with check_file_io_handle := fun _ => -1 }

/-- An empty stream, checked by the specification's algorithm with a header of
4 bytes, for which the release of the handle fails. -/
def emptyStreamFreeFailsEnv : Env :=
  { freeFailsEnv with
    check_file_io_handle := fun _ => signature_check 4 [76, 0, 0, 0] (some ⟨some 0, []⟩) }

/-- A three-byte input, checked by the specification's algorithm with a header
of 4 bytes, both as a path and as a stream. -/
def truncatedEnv : Env :=
  { sampleEnv with
    check_narrow := signature_check 4 [76, 0, 0, 0] (some ⟨none, [76, 0, 0]⟩)
    check_wide := signature_check 4 [76, 0, 0, 0] (some ⟨none, [76, 0, 0]⟩)
    check_file_io_handle := fun _ => signature_check 4 [76, 0, 0, 0] (some ⟨none, [76, 0, 0]⟩) }

/-- The three-byte input of `truncatedEnv`, given as a Unicode path. -/
def truncatedUnicodeEnv : Env :=
  { truncatedEnv with is_unicode := 1, is_string := 0 }

/-- A byte-string argument that the `"|s"` parser of the narrow build refuses
(for instance a string with an embedded NUL) and the `"|O"` parser of the wide
build accepts. -/
def refusedByNarrowParserEnv : Env :=
  { sampleEnv with parse_s := 0 }

/-! ## Properties of outcomes -/

/-- The contract between the result code `r` of a library path check and the
outcome `o` of the binding function that made it: `IOError` exactly for -1,
`False` exactly for 0, `True` exactly for any other code; a returned object
comes with no exception pending, a `NULL` return comes with `IOError` pending,
and no exception kind other than `IOError` is raised. -/
def PathCheckContract (o : Outcome) (r : Int) : Prop :=
  (o.failsWith .PyExc_IOError ↔ r = -1) ∧
  (o.returnsBool false ↔ r = 0) ∧
  (o.returnsBool true ↔ (r ≠ -1 ∧ r ≠ 0)) ∧
  (o.value ≠ .NULL → pendingException o.trace = none) ∧
  (o.value = .NULL → pendingException o.trace = some .PyExc_IOError) ∧
  (∀ exc ∈ raisedKinds o.trace, exc = .PyExc_IOError)

/-- The argument was checked as a wide path: one wide library check, no narrow one. -/
def checkedAsWide (o : Outcome) : Bool :=
  wideChecks o.trace == 1 && narrowChecks o.trace == 0

/-- The argument was checked as a narrow path: one narrow library check, no wide one. -/
def checkedAsNarrow (o : Outcome) : Bool :=
  narrowChecks o.trace == 1 && wideChecks o.trace == 0

/-- The call failed with `exc` and made no library check at all. -/
def rejectedWith (o : Outcome) (exc : PyExc) : Bool :=
  decide (o.failsWith exc) && wideChecks o.trace == 0 && narrowChecks o.trace == 0

/-- How many of the four outcomes of the wide build's classification hold of `o`. -/
def classificationCount (o : Outcome) : Nat :=
  [checkedAsWide o, checkedAsNarrow o, rejectedWith o .PyExc_TypeError,
   rejectedWith o .PyExc_RuntimeError].count true

/-! ## Theorems -/

/-- The lock discipline is not vacuous: a library check made while the lock is
held is rejected, and so is a raise made while it is released. -/
theorem lockRun_rejects_misplaced_calls :
    lockRun true [.liblnk_check_file_signature 1] = none ∧
    lockRun true [.Py_BEGIN_ALLOW_THREADS, .pylnk_error_raise .PyExc_IOError] = none ∧
    lockRun true [.Py_BEGIN_ALLOW_THREADS, .liblnk_check_file_signature 1] = some false := by
  decide

/-- C1: once the path has been parsed, `pylnk_check_file_signature` fails with
`IOError` exactly when the library path check gives -1, returns `False` exactly
when it gives 0 and `True` exactly when it gives anything else; a boolean never
comes with an exception, and no other exception kind is raised.  This holds in
the narrow build, and in the wide build on both of its path branches. -/
theorem C1_path_check_result (env : Env) :
    (env.parse_s ≠ 0 →
      PathCheckContract (Narrow.pylnk_check_file_signature env) env.check_narrow) ∧
    (env.parse_O ≠ 0 → env.is_unicode ≠ -1 → env.is_unicode ≠ 0 →
      PathCheckContract (Wide.pylnk_check_file_signature env) env.check_wide) ∧
    (env.parse_O ≠ 0 → env.is_unicode = 0 → env.is_string ≠ -1 → env.is_string ≠ 0 →
      PathCheckContract (Wide.pylnk_check_file_signature env) env.check_narrow) := by
  refine ⟨fun hp => ?_, fun hp hu1 hu0 => ?_, fun hp hu hs1 hs0 => ?_⟩
  · by_cases h1 : env.check_narrow = -1 <;> by_cases h0 : env.check_narrow = 0 <;>
      simp_all [PathCheckContract, Narrow.pylnk_check_file_signature, Outcome.failsWith,
        Outcome.returnsBool, pendingException, errorIndicatorStep, raisedKinds]
  · by_cases h1 : env.check_wide = -1 <;> by_cases h0 : env.check_wide = 0 <;>
      simp_all [PathCheckContract, Wide.pylnk_check_file_signature, Wide.checked,
        Outcome.failsWith, Outcome.returnsBool, pendingException, errorIndicatorStep,
        raisedKinds]
  · by_cases h1 : env.check_narrow = -1 <;> by_cases h0 : env.check_narrow = 0 <;>
      simp_all [PathCheckContract, Wide.pylnk_check_file_signature, Wide.checked,
        Outcome.failsWith, Outcome.returnsBool, pendingException, errorIndicatorStep,
        raisedKinds]

/-- Witness of C1: the narrow build and the narrow branch of the wide build at
`sampleEnv`, the wide branch at `sampleUnicodeEnv`. -/
theorem C1_path_check_result_witness :
    (sampleEnv.parse_s ≠ 0 ∧
      PathCheckContract (Narrow.pylnk_check_file_signature sampleEnv) 1) ∧
    (sampleUnicodeEnv.parse_O ≠ 0 ∧ sampleUnicodeEnv.is_unicode ≠ -1 ∧
      sampleUnicodeEnv.is_unicode ≠ 0 ∧
      PathCheckContract (Wide.pylnk_check_file_signature sampleUnicodeEnv) 1) ∧
    (sampleEnv.parse_O ≠ 0 ∧ sampleEnv.is_unicode = 0 ∧ sampleEnv.is_string ≠ -1 ∧
      sampleEnv.is_string ≠ 0 ∧
      PathCheckContract (Wide.pylnk_check_file_signature sampleEnv) 1) :=
  ⟨⟨by decide, (C1_path_check_result sampleEnv).1 (by decide)⟩,
   ⟨by decide, by decide, by decide,
    (C1_path_check_result sampleUnicodeEnv).2.1 (by decide) (by decide) (by decide)⟩,
   ⟨by decide, by decide, by decide, by decide,
    (C1_path_check_result sampleEnv).2.2 (by decide) (by decide) (by decide) (by decide)⟩⟩

/-- C3, as stated, fails: when adapter construction fails, the call fails with
`MemoryError`, not with `IOError`. -/
theorem C3_counterexample :
    initFailsEnv.parse_O ≠ 0 ∧ initFailsEnv.file_object_init.1 ≠ 1 ∧
    (pylnk_check_file_signature_file_object initFailsEnv).failsWith .PyExc_MemoryError ∧
    ¬ (pylnk_check_file_signature_file_object initFailsEnv).failsWith .PyExc_IOError := by
  decide

/-- C3, amended: in `pylnk_check_file_signature_file_object`, once the argument
is parsed, a failed adapter construction (result other than 1) makes the call
fail with `MemoryError` and raises nothing else; a library check that gives -1
makes it fail with `IOError` and raises nothing else; and the function raises
`TypeError` on no path. -/
theorem C3_adapter_failure_kinds (env : Env) (hparse : env.parse_O ≠ 0) :
    (env.file_object_init.1 ≠ 1 →
      (pylnk_check_file_signature_file_object env).failsWith .PyExc_MemoryError ∧
      raisedKinds (pylnk_check_file_signature_file_object env).trace
        = [.PyExc_MemoryError]) ∧
    (env.file_object_init.1 = 1 →
      env.check_file_io_handle env.file_object_init.2 = -1 →
      (pylnk_check_file_signature_file_object env).failsWith .PyExc_IOError ∧
      raisedKinds (pylnk_check_file_signature_file_object env).trace
        = [.PyExc_IOError]) ∧
    PyExc.PyExc_TypeError ∉ raisedKinds (pylnk_check_file_signature_file_object env).trace ∧
    ¬ (pylnk_check_file_signature_file_object env).failsWith .PyExc_TypeError := by
  by_cases hi : env.file_object_init.1 = 1 <;>
  by_cases hc : env.check_file_io_handle env.file_object_init.2 = -1 <;>
  by_cases hf : (env.handle_free env.file_object_init.2).1 = 1 <;>
  by_cases h0 : env.check_file_io_handle env.file_object_init.2 = 0 <;>
  cases hh : env.file_object_init.2 <;>
  cases hn : (env.handle_free env.file_object_init.2).2 <;>
    simp_all [pylnk_check_file_signature_file_object, on_error, raisedKinds,
      Outcome.failsWith, pendingException, errorIndicatorStep]

/-- Witness of C3, amended: construction fails at `initFailsEnv`, the library
check reports a read failure at `checkFailsEnv`. -/
theorem C3_adapter_failure_kinds_witness :
    (initFailsEnv.parse_O ≠ 0 ∧ initFailsEnv.file_object_init.1 ≠ 1 ∧
      (pylnk_check_file_signature_file_object initFailsEnv).failsWith .PyExc_MemoryError) ∧
    (checkFailsEnv.parse_O ≠ 0 ∧ checkFailsEnv.file_object_init.1 = 1 ∧
      checkFailsEnv.check_file_io_handle checkFailsEnv.file_object_init.2 = -1 ∧
      (pylnk_check_file_signature_file_object checkFailsEnv).failsWith .PyExc_IOError) :=
  ⟨⟨by decide, by decide,
    ((C3_adapter_failure_kinds initFailsEnv (by decide)).1 (by decide)).1⟩,
   ⟨by decide, by decide, by decide,
    ((C3_adapter_failure_kinds checkFailsEnv (by decide)).2.1 (by decide) (by decide)).1⟩⟩

/-- C4: when adapter construction fails (its result is not 1),
`pylnk_check_file_signature_file_object` returns `NULL` with an exception
pending and its trace holds no library check at all, so the check step never
seeks or reads the caller's object. -/
theorem C4_no_check_after_failed_construction (env : Env)
    (hinit : env.file_object_init.1 ≠ 1) :
    (pylnk_check_file_signature_file_object env).value = .NULL ∧
    pendingException (pylnk_check_file_signature_file_object env).trace ≠ none ∧
    fileIoHandleChecks (pylnk_check_file_signature_file_object env).trace = 0 ∧
    ∀ e ∈ (pylnk_check_file_signature_file_object env).trace, e.isLibraryCheck = false := by
  by_cases hp : env.parse_O = 0 <;>
  cases hh : env.file_object_init.2 <;>
    simp_all [pylnk_check_file_signature_file_object, on_error, fileIoHandleChecks,
      pendingException, errorIndicatorStep, Event.isLibraryCheck]

/-- Witness of C4 at `initFailsEnv`. -/
theorem C4_no_check_after_failed_construction_witness :
    initFailsEnv.file_object_init.1 ≠ 1 ∧
    (pylnk_check_file_signature_file_object initFailsEnv).value = .NULL ∧
    fileIoHandleChecks (pylnk_check_file_signature_file_object initFailsEnv).trace = 0 :=
  ⟨by decide,
   (C4_no_check_after_failed_construction initFailsEnv (by decide)).1,
   (C4_no_check_after_failed_construction initFailsEnv (by decide)).2.2.1⟩

/-- Whatever the external calls would give, the wide build returns from a call
without argument only when the parse itself fails. -/
theorem wide_omitted_argument_returns_iff (env : Env) :
    (Wide.invoke false env).result ≠ none ↔ env.parse_O = 0 := by
  by_cases hp : env.parse_O = 0 <;> simp [Wide.invoke, Run.result, hp]

/-- The classification of a supplied argument by the wide build: a Unicode
instance is checked as a wide path, whatever the byte-string probe would say;
otherwise a byte-string instance is checked as a narrow path; otherwise the
call fails with `TypeError`; a probe that fails with -1 gives `RuntimeError`.
Each of the four outcomes occurs exactly under its condition, exactly one of
them occurs, and the two failures make no library check. -/
theorem wide_classification_of_supplied_argument (env : Env) (hparse : env.parse_O ≠ 0) :
    Wide.invoke true env = .returned (Wide.pylnk_check_file_signature env) ∧
    (checkedAsWide (Wide.pylnk_check_file_signature env) = true ↔
      (env.is_unicode ≠ -1 ∧ env.is_unicode ≠ 0)) ∧
    (checkedAsNarrow (Wide.pylnk_check_file_signature env) = true ↔
      (env.is_unicode = 0 ∧ env.is_string ≠ -1 ∧ env.is_string ≠ 0)) ∧
    (rejectedWith (Wide.pylnk_check_file_signature env) .PyExc_TypeError = true ↔
      (env.is_unicode = 0 ∧ env.is_string = 0)) ∧
    (rejectedWith (Wide.pylnk_check_file_signature env) .PyExc_RuntimeError = true ↔
      (env.is_unicode = -1 ∨ (env.is_unicode = 0 ∧ env.is_string = -1))) ∧
    classificationCount (Wide.pylnk_check_file_signature env) = 1 := by
  refine ⟨by simp [Wide.invoke, hparse], ?_⟩
  by_cases hu1 : env.is_unicode = -1
  · simp_all [Wide.pylnk_check_file_signature, Wide.probe_failed,
      checkedAsWide, checkedAsNarrow, rejectedWith, classificationCount,
      wideChecks, narrowChecks, Outcome.failsWith, pendingException, errorIndicatorStep]
  by_cases hu0 : env.is_unicode = 0
  · by_cases hs1 : env.is_string = -1
    · simp_all [Wide.pylnk_check_file_signature, Wide.probe_failed,
        checkedAsWide, checkedAsNarrow, rejectedWith, classificationCount,
        wideChecks, narrowChecks, Outcome.failsWith, pendingException, errorIndicatorStep]
    by_cases hs0 : env.is_string = 0
    · simp_all [Wide.pylnk_check_file_signature,
        checkedAsWide, checkedAsNarrow, rejectedWith, classificationCount,
        wideChecks, narrowChecks, Outcome.failsWith, pendingException, errorIndicatorStep]
    · by_cases hn1 : env.check_narrow = -1 <;> by_cases hn0 : env.check_narrow = 0 <;>
        simp_all [Wide.pylnk_check_file_signature, Wide.checked,
          checkedAsWide, checkedAsNarrow, rejectedWith, classificationCount,
          wideChecks, narrowChecks, Outcome.failsWith, pendingException,
          errorIndicatorStep]
  · by_cases hw1 : env.check_wide = -1 <;> by_cases hw0 : env.check_wide = 0 <;>
      simp_all [Wide.pylnk_check_file_signature, Wide.checked,
        checkedAsWide, checkedAsNarrow, rejectedWith, classificationCount,
        wideChecks, narrowChecks, Outcome.failsWith, pendingException,
        errorIndicatorStep]

/-- C5: the wide build is to give every argument exactly one of four outcomes
(wide check, narrow check, `TypeError`, `RuntimeError`).  The call with the
optional argument left out gets none of them: the parse succeeds, and the call
stops in `PyObject_IsInstance( NULL, .. )` at line 165 with no outcome returned,
no exception raised and no library check made. -/
theorem C5_omitted_argument_gets_no_outcome :
    sampleEnv.parse_O ≠ 0 ∧
    Wide.invoke false sampleEnv
      = .crashed [.PyArg_ParseTupleAndKeywords 1, .PyErr_Clear] ∧
    (Wide.invoke false sampleEnv).result = none := by
  decide

/-- C6, as stated, fails: with both library checks giving 1, the path variant
returns `True`, while the stream variant fails with `MemoryError` when the
release of the handle fails (`freeFailsEnv`) and when adapter construction
fails (`initFailsEnv`). -/
theorem C6_counterexample :
    (freeFailsEnv.check_narrow = 1 ∧
      freeFailsEnv.check_file_io_handle freeFailsEnv.file_object_init.2 = 1 ∧
      (Narrow.pylnk_check_file_signature freeFailsEnv).returnsBool true ∧
      (pylnk_check_file_signature_file_object freeFailsEnv).failsWith .PyExc_MemoryError ∧
      ∀ b, ¬ (pylnk_check_file_signature_file_object freeFailsEnv).returnsBool b) ∧
    (initFailsEnv.check_narrow = 1 ∧
      initFailsEnv.check_file_io_handle initFailsEnv.file_object_init.2 = 1 ∧
      (Narrow.pylnk_check_file_signature initFailsEnv).returnsBool true ∧
      (pylnk_check_file_signature_file_object initFailsEnv).failsWith .PyExc_MemoryError ∧
      ∀ b, ¬ (pylnk_check_file_signature_file_object initFailsEnv).returnsBool b) := by
  decide

/-- C6, amended: when the library path check and the library stream-handle
check give the same result code `r` in {0, 1}, then, if adapter construction
and handle release both give 1, `pylnk_check_file_signature` (narrow build, and
either path branch of the wide build) and
`pylnk_check_file_signature_file_object` return the same boolean, `True` for 1
and `False` for 0; and if either of the two gives another result, the stream
variant returns no boolean and fails with `MemoryError`. -/
theorem C6_adapter_path_equivalence (env : Env) (r : Int) (hr : r = 0 ∨ r = 1)
    (hparse : env.parse_O ≠ 0)
    (hcheck : env.check_file_io_handle env.file_object_init.2 = r) :
    (env.file_object_init.1 = 1 → (env.handle_free env.file_object_init.2).1 = 1 →
      (pylnk_check_file_signature_file_object env).returnsBool (decide (r = 1)) ∧
      (env.parse_s ≠ 0 → env.check_narrow = r →
        (Narrow.pylnk_check_file_signature env).returnsBool (decide (r = 1))) ∧
      (env.is_unicode ≠ -1 → env.is_unicode ≠ 0 → env.check_wide = r →
        (Wide.pylnk_check_file_signature env).returnsBool (decide (r = 1))) ∧
      (env.is_unicode = 0 → env.is_string ≠ -1 → env.is_string ≠ 0 →
        env.check_narrow = r →
        (Wide.pylnk_check_file_signature env).returnsBool (decide (r = 1)))) ∧
    ((env.file_object_init.1 ≠ 1 ∨ (env.handle_free env.file_object_init.2).1 ≠ 1) →
      (pylnk_check_file_signature_file_object env).failsWith .PyExc_MemoryError ∧
      ∀ b, ¬ (pylnk_check_file_signature_file_object env).returnsBool b) := by
  refine ⟨fun hinit hfree => ?_, fun hfail => ?_⟩
  · rcases hr with rfl | rfl <;>
      refine ⟨?_, fun hp hn => ?_, fun hu1 hu0 hw => ?_, fun hu hs1 hs0 hn => ?_⟩ <;>
      simp_all [pylnk_check_file_signature_file_object, Narrow.pylnk_check_file_signature,
        Wide.pylnk_check_file_signature, Wide.checked, Outcome.returnsBool,
        pendingException, errorIndicatorStep]
  · by_cases hi : env.file_object_init.1 = 1 <;>
    by_cases hf : (env.handle_free env.file_object_init.2).1 = 1 <;>
    cases hh : env.file_object_init.2 <;>
    cases hn : (env.handle_free env.file_object_init.2).2 <;>
    rcases hr with rfl | rfl <;>
      simp_all [pylnk_check_file_signature_file_object, on_error, Outcome.returnsBool,
        Outcome.failsWith, pendingException, errorIndicatorStep]

/-- Witness of C6, amended: `sampleEnv` (both checks give 1; narrow build and
narrow branch), `sampleUnicodeEnv` (wide branch), and the two failures of the
stream variant at `freeFailsEnv` and `initFailsEnv`. -/
theorem C6_adapter_path_equivalence_witness :
    (((1 : Int) = 0 ∨ (1 : Int) = 1) ∧ sampleEnv.parse_O ≠ 0 ∧
      sampleEnv.check_file_io_handle sampleEnv.file_object_init.2 = 1 ∧
      sampleEnv.file_object_init.1 = 1 ∧
      (sampleEnv.handle_free sampleEnv.file_object_init.2).1 = 1 ∧
      sampleEnv.parse_s ≠ 0 ∧ sampleEnv.check_narrow = 1 ∧
      sampleEnv.is_unicode = 0 ∧ sampleEnv.is_string ≠ -1 ∧ sampleEnv.is_string ≠ 0 ∧
      (pylnk_check_file_signature_file_object sampleEnv).returnsBool true ∧
      (Narrow.pylnk_check_file_signature sampleEnv).returnsBool true ∧
      (Wide.pylnk_check_file_signature sampleEnv).returnsBool true) ∧
    (sampleUnicodeEnv.parse_O ≠ 0 ∧
      sampleUnicodeEnv.check_file_io_handle sampleUnicodeEnv.file_object_init.2 = 1 ∧
      sampleUnicodeEnv.file_object_init.1 = 1 ∧
      (sampleUnicodeEnv.handle_free sampleUnicodeEnv.file_object_init.2).1 = 1 ∧
      sampleUnicodeEnv.is_unicode ≠ -1 ∧ sampleUnicodeEnv.is_unicode ≠ 0 ∧
      sampleUnicodeEnv.check_wide = 1 ∧
      (Wide.pylnk_check_file_signature sampleUnicodeEnv).returnsBool true) ∧
    (freeFailsEnv.parse_O ≠ 0 ∧
      freeFailsEnv.check_file_io_handle freeFailsEnv.file_object_init.2 = 1 ∧
      (freeFailsEnv.handle_free freeFailsEnv.file_object_init.2).1 ≠ 1 ∧
      (pylnk_check_file_signature_file_object freeFailsEnv).failsWith .PyExc_MemoryError) ∧
    (initFailsEnv.parse_O ≠ 0 ∧
      initFailsEnv.check_file_io_handle initFailsEnv.file_object_init.2 = 1 ∧
      initFailsEnv.file_object_init.1 ≠ 1 ∧
      (pylnk_check_file_signature_file_object initFailsEnv).failsWith .PyExc_MemoryError) :=
  ⟨⟨by decide, by decide, by decide, by decide, by decide, by decide, by decide,
    by decide, by decide, by decide,
    ((C6_adapter_path_equivalence sampleEnv 1 (by decide) (by decide) (by decide)).1
      (by decide) (by decide)).1,
    ((C6_adapter_path_equivalence sampleEnv 1 (by decide) (by decide) (by decide)).1
      (by decide) (by decide)).2.1 (by decide) (by decide),
    ((C6_adapter_path_equivalence sampleEnv 1 (by decide) (by decide) (by decide)).1
      (by decide) (by decide)).2.2.2 (by decide) (by decide) (by decide) (by decide)⟩,
   ⟨by decide, by decide, by decide, by decide, by decide, by decide, by decide,
    ((C6_adapter_path_equivalence sampleUnicodeEnv 1 (by decide) (by decide)
      (by decide)).1 (by decide) (by decide)).2.2.1 (by decide) (by decide) (by decide)⟩,
   ⟨by decide, by decide, by decide,
    ((C6_adapter_path_equivalence freeFailsEnv 1 (by decide) (by decide) (by decide)).2
      (Or.inr (by decide))).1⟩,
   ⟨by decide, by decide, by decide,
    ((C6_adapter_path_equivalence initFailsEnv 1 (by decide) (by decide) (by decide)).2
      (Or.inl (by decide))).1⟩⟩

/-- The specification's check gives 0 on every resource shorter than the header. -/
theorem signature_check_short (header_length : Nat) (magic : List Nat) (res : Resource)
    (hshort : res.content.length < header_length) :
    signature_check header_length magic (some res) = 0 := by
  cases hsize : res.size with
  | none => simp [signature_check, hsize, hshort]
  | some n => by_cases hn : n < header_length <;> simp [signature_check, hsize, hn, hshort]

/-- C7, as stated, fails: on an empty stream (length 0, header length 4) the
library check is made and gives 0, the release of the handle at line 436 then
fails, and the stream variant drops the `False` and fails with `MemoryError`. -/
theorem C7_counterexample :
    ([] : List Nat).length < 4 ∧
    emptyStreamFreeFailsEnv.parse_O ≠ 0 ∧
    emptyStreamFreeFailsEnv.file_object_init.1 = 1 ∧
    emptyStreamFreeFailsEnv.check_file_io_handle
      emptyStreamFreeFailsEnv.file_object_init.2
        = signature_check 4 [76, 0, 0, 0] (some ⟨some 0, []⟩) ∧
    emptyStreamFreeFailsEnv.check_file_io_handle
      emptyStreamFreeFailsEnv.file_object_init.2 = 0 ∧
    fileIoHandleChecks
      (pylnk_check_file_signature_file_object emptyStreamFreeFailsEnv).trace = 1 ∧
    (pylnk_check_file_signature_file_object emptyStreamFreeFailsEnv).failsWith
      .PyExc_MemoryError ∧
    ¬ (pylnk_check_file_signature_file_object emptyStreamFreeFailsEnv).returnsBool false := by
  decide

/-- C7, amended: for every input whose readable length is below the header
length, the empty one included, the library check of the specification gives 0,
and with that result `pylnk_check_file_signature` returns `False` with no
exception (narrow build, and either path branch of the wide build), while
`pylnk_check_file_signature_file_object`, once the adapter is constructed,
returns `False` with no exception when the handle release gives 1, and returns
no boolean and fails with `MemoryError` when the release gives anything else. -/
theorem C7_short_input_is_false (header_length : Nat) (magic : List Nat) (res : Resource)
    (env : Env) (hshort : res.content.length < header_length) :
    (env.parse_s ≠ 0 →
      env.check_narrow = signature_check header_length magic (some res) →
      (Narrow.pylnk_check_file_signature env).returnsBool false) ∧
    (env.parse_O ≠ 0 → env.is_unicode ≠ -1 → env.is_unicode ≠ 0 →
      env.check_wide = signature_check header_length magic (some res) →
      (Wide.pylnk_check_file_signature env).returnsBool false) ∧
    (env.parse_O ≠ 0 → env.is_unicode = 0 → env.is_string ≠ -1 → env.is_string ≠ 0 →
      env.check_narrow = signature_check header_length magic (some res) →
      (Wide.pylnk_check_file_signature env).returnsBool false) ∧
    (env.parse_O ≠ 0 → env.file_object_init.1 = 1 →
      (env.handle_free env.file_object_init.2).1 = 1 →
      env.check_file_io_handle env.file_object_init.2
        = signature_check header_length magic (some res) →
      (pylnk_check_file_signature_file_object env).returnsBool false) ∧
    (env.parse_O ≠ 0 → env.file_object_init.1 = 1 →
      (env.handle_free env.file_object_init.2).1 ≠ 1 →
      env.check_file_io_handle env.file_object_init.2
        = signature_check header_length magic (some res) →
      (pylnk_check_file_signature_file_object env).failsWith .PyExc_MemoryError ∧
      ∀ b, ¬ (pylnk_check_file_signature_file_object env).returnsBool b) := by
  have h0 := signature_check_short header_length magic res hshort
  rw [h0]
  refine ⟨fun hp hn => ?_, fun hp hu1 hu0 hw => ?_, fun hp hu hs1 hs0 hn => ?_,
    fun hp hi hf hc => ?_, fun hp hi hf hc => ?_⟩
  · simp_all [Narrow.pylnk_check_file_signature, Outcome.returnsBool,
      pendingException, errorIndicatorStep]
  · simp_all [Wide.pylnk_check_file_signature, Wide.checked, Outcome.returnsBool,
      pendingException, errorIndicatorStep]
  · simp_all [Wide.pylnk_check_file_signature, Wide.checked, Outcome.returnsBool,
      pendingException, errorIndicatorStep]
  · simp_all [pylnk_check_file_signature_file_object, Outcome.returnsBool,
      pendingException, errorIndicatorStep]
  · cases hn : (env.handle_free env.file_object_init.2).2 <;>
      simp_all [pylnk_check_file_signature_file_object, on_error, Outcome.returnsBool,
        Outcome.failsWith, pendingException, errorIndicatorStep]

/-- Witness of C7, amended: a three-byte input against a four-byte header, as a
byte-string path, as a Unicode path and as a stream; and the empty stream whose
release fails. -/
theorem C7_short_input_is_false_witness :
    (([76, 0, 0] : List Nat).length < 4 ∧
      truncatedEnv.parse_s ≠ 0 ∧ truncatedEnv.parse_O ≠ 0 ∧
      truncatedEnv.is_unicode = 0 ∧ truncatedEnv.is_string ≠ -1 ∧
      truncatedEnv.is_string ≠ 0 ∧
      truncatedUnicodeEnv.parse_O ≠ 0 ∧
      truncatedUnicodeEnv.is_unicode ≠ -1 ∧ truncatedUnicodeEnv.is_unicode ≠ 0 ∧
      truncatedEnv.file_object_init.1 = 1 ∧
      (truncatedEnv.handle_free truncatedEnv.file_object_init.2).1 = 1 ∧
      (Narrow.pylnk_check_file_signature truncatedEnv).returnsBool false ∧
      (Wide.pylnk_check_file_signature truncatedUnicodeEnv).returnsBool false ∧
      (Wide.pylnk_check_file_signature truncatedEnv).returnsBool false ∧
      (pylnk_check_file_signature_file_object truncatedEnv).returnsBool false) ∧
    (([] : List Nat).length < 4 ∧ emptyStreamFreeFailsEnv.parse_O ≠ 0 ∧
      emptyStreamFreeFailsEnv.file_object_init.1 = 1 ∧
      (emptyStreamFreeFailsEnv.handle_free
        emptyStreamFreeFailsEnv.file_object_init.2).1 ≠ 1 ∧
      (pylnk_check_file_signature_file_object emptyStreamFreeFailsEnv).failsWith
        .PyExc_MemoryError) :=
  ⟨⟨by decide, by decide, by decide, by decide, by decide, by decide, by decide,
    by decide, by decide, by decide, by decide,
    (C7_short_input_is_false 4 [76, 0, 0, 0] ⟨none, [76, 0, 0]⟩ truncatedEnv
      (by decide)).1 (by decide) rfl,
    (C7_short_input_is_false 4 [76, 0, 0, 0] ⟨none, [76, 0, 0]⟩ truncatedUnicodeEnv
      (by decide)).2.1 (by decide) (by decide) (by decide) rfl,
    (C7_short_input_is_false 4 [76, 0, 0, 0] ⟨none, [76, 0, 0]⟩ truncatedEnv
      (by decide)).2.2.1 (by decide) (by decide) (by decide) (by decide) rfl,
    (C7_short_input_is_false 4 [76, 0, 0, 0] ⟨none, [76, 0, 0]⟩ truncatedEnv
      (by decide)).2.2.2.1 (by decide) (by decide) (by decide) rfl⟩,
   ⟨by decide, by decide, by decide, by decide,
    ((C7_short_input_is_false 4 [76, 0, 0, 0] ⟨some 0, []⟩ emptyStreamFreeFailsEnv
      (by decide)).2.2.2.2 (by decide) (by decide) (by decide) rfl).1⟩⟩

/-- C8: in the narrow build, the wide build and the file-object variant, on
every path, the library check is called between `Py_BEGIN_ALLOW_THREADS` and
`Py_END_ALLOW_THREADS`, that is with the interpreter lock released; every
other call, including each one that raises an exception, is made with the lock
held; and the function returns with the lock held. -/
theorem C8_lock_released_around_check (env : Env) :
    lockRun true (Narrow.pylnk_check_file_signature env).trace = some true ∧
    lockRun true (Wide.pylnk_check_file_signature env).trace = some true ∧
    lockRun true (pylnk_check_file_signature_file_object env).trace = some true := by
  refine ⟨?_, ?_, ?_⟩
  · by_cases hp : env.parse_s = 0 <;>
    by_cases h1 : env.check_narrow = -1 <;> by_cases h0 : env.check_narrow = 0 <;>
      simp_all [Narrow.pylnk_check_file_signature, lockRun, lockStep, Event.isLibraryCheck]
  · unfold Wide.pylnk_check_file_signature Wide.checked Wide.probe_failed
    split_ifs <;> simp [lockRun, lockStep, Event.isLibraryCheck]
  · by_cases hp : env.parse_O = 0 <;>
    by_cases hi : env.file_object_init.1 = 1 <;>
    by_cases hc : env.check_file_io_handle env.file_object_init.2 = -1 <;>
    by_cases hf : (env.handle_free env.file_object_init.2).1 = 1 <;>
    by_cases h0 : env.check_file_io_handle env.file_object_init.2 = 0 <;>
    cases hh : env.file_object_init.2 <;>
    cases hn : (env.handle_free env.file_object_init.2).2 <;>
      simp_all [pylnk_check_file_signature_file_object, on_error, lockRun, lockStep,
        Event.isLibraryCheck]

/-- C9: once the argument is parsed, `pylnk_check_file_signature_file_object`
returns a boolean exactly when adapter construction gave 1, the library check
gave something other than -1 and the handle release gave 1, and the boolean is
then `True` exactly when the library result is non-zero.  When the check
succeeded but the release fails, the boolean is dropped and the call fails with
`MemoryError`; a failed construction also gives `MemoryError`, and a library
result of -1 gives `IOError`. -/
theorem C9_file_object_outcomes (env : Env) (hparse : env.parse_O ≠ 0) :
    ((pylnk_check_file_signature_file_object env).value ≠ .NULL ↔
      (env.file_object_init.1 = 1 ∧
       env.check_file_io_handle env.file_object_init.2 ≠ -1 ∧
       (env.handle_free env.file_object_init.2).1 = 1)) ∧
    (env.file_object_init.1 = 1 →
      env.check_file_io_handle env.file_object_init.2 ≠ -1 →
      (env.handle_free env.file_object_init.2).1 = 1 →
      (pylnk_check_file_signature_file_object env).returnsBool
        (decide (env.check_file_io_handle env.file_object_init.2 ≠ 0))) ∧
    (env.file_object_init.1 = 1 →
      env.check_file_io_handle env.file_object_init.2 ≠ -1 →
      (env.handle_free env.file_object_init.2).1 ≠ 1 →
      (pylnk_check_file_signature_file_object env).failsWith .PyExc_MemoryError) ∧
    (env.file_object_init.1 ≠ 1 →
      (pylnk_check_file_signature_file_object env).failsWith .PyExc_MemoryError) ∧
    (env.file_object_init.1 = 1 →
      env.check_file_io_handle env.file_object_init.2 = -1 →
      (pylnk_check_file_signature_file_object env).failsWith .PyExc_IOError) := by
  by_cases hi : env.file_object_init.1 = 1 <;>
  by_cases hc : env.check_file_io_handle env.file_object_init.2 = -1 <;>
  by_cases hf : (env.handle_free env.file_object_init.2).1 = 1 <;>
  by_cases h0 : env.check_file_io_handle env.file_object_init.2 = 0 <;>
  cases hh : env.file_object_init.2 <;>
  cases hn : (env.handle_free env.file_object_init.2).2 <;>
    simp_all [pylnk_check_file_signature_file_object, on_error, Outcome.returnsBool,
      Outcome.failsWith, pendingException, errorIndicatorStep]

/-- Witness of C9: success at `sampleEnv`, a failed release at `freeFailsEnv`,
a failed construction at `initFailsEnv`, a failed check at `checkFailsEnv`. -/
theorem C9_file_object_outcomes_witness :
    (sampleEnv.parse_O ≠ 0 ∧ sampleEnv.file_object_init.1 = 1 ∧
      sampleEnv.check_file_io_handle sampleEnv.file_object_init.2 ≠ -1 ∧
      (sampleEnv.handle_free sampleEnv.file_object_init.2).1 = 1 ∧
      (pylnk_check_file_signature_file_object sampleEnv).returnsBool true) ∧
    (freeFailsEnv.parse_O ≠ 0 ∧ freeFailsEnv.file_object_init.1 = 1 ∧
      freeFailsEnv.check_file_io_handle freeFailsEnv.file_object_init.2 ≠ -1 ∧
      (freeFailsEnv.handle_free freeFailsEnv.file_object_init.2).1 ≠ 1 ∧
      (pylnk_check_file_signature_file_object freeFailsEnv).failsWith .PyExc_MemoryError) ∧
    (initFailsEnv.parse_O ≠ 0 ∧ initFailsEnv.file_object_init.1 ≠ 1 ∧
      (pylnk_check_file_signature_file_object initFailsEnv).failsWith .PyExc_MemoryError) ∧
    (checkFailsEnv.parse_O ≠ 0 ∧ checkFailsEnv.file_object_init.1 = 1 ∧
      checkFailsEnv.check_file_io_handle checkFailsEnv.file_object_init.2 = -1 ∧
      (pylnk_check_file_signature_file_object checkFailsEnv).failsWith .PyExc_IOError) :=
  ⟨⟨by decide, by decide, by decide, by decide,
    (C9_file_object_outcomes sampleEnv (by decide)).2.1 (by decide) (by decide) (by decide)⟩,
   ⟨by decide, by decide, by decide, by decide,
    (C9_file_object_outcomes freeFailsEnv (by decide)).2.2.1 (by decide) (by decide)
      (by decide)⟩,
   ⟨by decide, by decide,
    (C9_file_object_outcomes initFailsEnv (by decide)).2.2.2.1 (by decide)⟩,
   ⟨by decide, by decide, by decide,
    (C9_file_object_outcomes checkFailsEnv (by decide)).2.2.2.2 (by decide) (by decide)⟩⟩

/-- C10, as stated, fails: a byte string that the narrow build's `"|s"` parser
refuses and the wide build's `"|O"` parser accepts meets the claim's condition
(Unicode probe 0, byte-string probe 1); with the library check giving 1 the wide
build returns `True` after one narrow library check, while the narrow build
returns `NULL` and makes no library check. -/
theorem C10_counterexample :
    refusedByNarrowParserEnv.parse_O ≠ 0 ∧ refusedByNarrowParserEnv.parse_s = 0 ∧
    refusedByNarrowParserEnv.is_unicode = 0 ∧ refusedByNarrowParserEnv.is_string = 1 ∧
    refusedByNarrowParserEnv.check_narrow = 1 ∧
    (Wide.pylnk_check_file_signature refusedByNarrowParserEnv).returnsBool true ∧
    narrowChecks (Wide.pylnk_check_file_signature refusedByNarrowParserEnv).trace = 1 ∧
    (Narrow.pylnk_check_file_signature refusedByNarrowParserEnv).value = .NULL ∧
    ¬ (Narrow.pylnk_check_file_signature refusedByNarrowParserEnv).returnsBool true ∧
    narrowChecks (Narrow.pylnk_check_file_signature refusedByNarrowParserEnv).trace = 0 := by
  decide

/-- C10, amended: on an argument that is a byte string and not a Unicode
instance (the Unicode probe gives 0, the byte-string probe a non-zero value
other than the failure code -1), the wide build gives `IOError` for a result
-1 of `liblnk_check_file_signature`, `False` for 0 and `True` otherwise, with
exactly one narrow library check and no wide one.  The narrow build gives the
same returned object and pending exception with the same calls whenever its
own argument parse succeeds; when that parse gives 0 it returns `NULL` with the
parser's exception pending and makes no library check. -/
theorem C10_builds_agree_on_byte_strings (env : Env)
    (hparse_O : env.parse_O ≠ 0)
    (hunicode : env.is_unicode = 0)
    (hstring : env.is_string ≠ 0) (hprobe : env.is_string ≠ -1) :
    (PathCheckContract (Wide.pylnk_check_file_signature env) env.check_narrow ∧
      narrowChecks (Wide.pylnk_check_file_signature env).trace = 1 ∧
      wideChecks (Wide.pylnk_check_file_signature env).trace = 0) ∧
    (env.parse_s ≠ 0 →
      (Wide.pylnk_check_file_signature env).value
        = (Narrow.pylnk_check_file_signature env).value ∧
      pendingException (Wide.pylnk_check_file_signature env).trace
        = pendingException (Narrow.pylnk_check_file_signature env).trace ∧
      PathCheckContract (Narrow.pylnk_check_file_signature env) env.check_narrow ∧
      narrowChecks (Narrow.pylnk_check_file_signature env).trace = 1 ∧
      wideChecks (Narrow.pylnk_check_file_signature env).trace = 0) ∧
    (env.parse_s = 0 →
      (Narrow.pylnk_check_file_signature env).failsWith .by_interpreter ∧
      narrowChecks (Narrow.pylnk_check_file_signature env).trace = 0 ∧
      wideChecks (Narrow.pylnk_check_file_signature env).trace = 0) := by
  refine ⟨?_, fun hp => ?_, fun hp => ?_⟩
  · by_cases h1 : env.check_narrow = -1 <;> by_cases h0 : env.check_narrow = 0 <;>
      simp_all [PathCheckContract, Wide.pylnk_check_file_signature, Wide.checked,
        Outcome.failsWith, Outcome.returnsBool, pendingException, errorIndicatorStep,
        raisedKinds, narrowChecks, wideChecks]
  · by_cases h1 : env.check_narrow = -1 <;> by_cases h0 : env.check_narrow = 0 <;>
      simp_all [PathCheckContract, Narrow.pylnk_check_file_signature,
        Wide.pylnk_check_file_signature, Wide.checked, Outcome.failsWith,
        Outcome.returnsBool, pendingException, errorIndicatorStep, raisedKinds,
        narrowChecks, wideChecks]
  · simp_all [Narrow.pylnk_check_file_signature, Outcome.failsWith, pendingException,
      errorIndicatorStep, narrowChecks, wideChecks]

/-- Witness of C10, amended: `sampleEnv` (both parsers accept the byte string)
and `refusedByNarrowParserEnv` (the narrow one refuses it). -/
theorem C10_builds_agree_on_byte_strings_witness :
    (sampleEnv.parse_O ≠ 0 ∧ sampleEnv.is_unicode = 0 ∧
      sampleEnv.is_string ≠ 0 ∧ sampleEnv.is_string ≠ -1 ∧ sampleEnv.parse_s ≠ 0 ∧
      (Wide.pylnk_check_file_signature sampleEnv).value
        = (Narrow.pylnk_check_file_signature sampleEnv).value ∧
      narrowChecks (Wide.pylnk_check_file_signature sampleEnv).trace = 1 ∧
      wideChecks (Wide.pylnk_check_file_signature sampleEnv).trace = 0) ∧
    (refusedByNarrowParserEnv.parse_O ≠ 0 ∧ refusedByNarrowParserEnv.is_unicode = 0 ∧
      refusedByNarrowParserEnv.is_string ≠ 0 ∧ refusedByNarrowParserEnv.is_string ≠ -1 ∧
      refusedByNarrowParserEnv.parse_s = 0 ∧
      narrowChecks (Narrow.pylnk_check_file_signature refusedByNarrowParserEnv).trace = 0) :=
  ⟨⟨by decide, by decide, by decide, by decide, by decide,
    ((C10_builds_agree_on_byte_strings sampleEnv (by decide) (by decide) (by decide)
      (by decide)).2.1 (by decide)).1,
    (C10_builds_agree_on_byte_strings sampleEnv (by decide) (by decide) (by decide)
      (by decide)).1.2.1,
    (C10_builds_agree_on_byte_strings sampleEnv (by decide) (by decide) (by decide)
      (by decide)).1.2.2⟩,
   ⟨by decide, by decide, by decide, by decide, by decide,
    ((C10_builds_agree_on_byte_strings refusedByNarrowParserEnv (by decide) (by decide)
      (by decide) (by decide)).2.2 (by decide)).2.1⟩⟩

end Pylnk
